import Mathlib

/-!
Shallow embedding of the POPSORTE-Z reconciliation and winner-determination
engine, translated from:

* src/homina/js/unified-page.js  (RechargeValidator: calendar rules, recharge
  matcher, ticket validator; DataFetcher: grouping and cache helpers)
* src/homina/js/winner-calculator.js  (WinnerCalculator: match scorer,
  contest winner resolver, campaign aggregator)
* src/homina/js/pages/entries.js  (AdminCore: getBrazilDateString,
  getPlatformPrize / PLATFORM_PRIZES)
* src/homina/js/data-store.js  (DataStore.filterByPlatform)

Modelling conventions:
* JS `Date` objects are wall-clock timestamps in the fixed campaign timezone
  (America/Sao_Paulo); the code reads them through `getHours`/`getMinutes`,
  `getMonth`/`getDate`/`getDay` and `getBrazilDateString`, all of which we
  model over a civil `Date` (1-indexed month, JS `getMonth()` is 0-indexed so
  JS `month === 11` becomes `month = 12` here) and a `DateTime` carrying
  hour/minute.  `getTime()` ordering is modelled by minutes-since-epoch.
* A possibly invalid / missing JS `Date` (the `!(x instanceof Date) ||
  isNaN(x.getTime())` guards) is `Option DateTime` with `none` for invalid.
* JS numbers used for money are modelled as `Rat` (exact division; the code
  only divides the fixed pool by small winner counts).
* A `throw` in `getNextValidDrawDate` is modelled by `Option.none`.
* JS stable `Array.prototype.sort` with a comparator is modelled by the
  stable `List.insertionSort` with the corresponding relation.
* Falsy string fields (`undefined`, `null`, `''`) are modelled as `""`.
-/

namespace PopSorte

/-! ## Civil calendar (the JS Date arithmetic the validator relies on) -/

/-- A civil (proleptic Gregorian) calendar date, month 1..12, day 1-based. -/
structure Date where
  year : Nat
  month : Nat
  day : Nat
deriving DecidableEq, Repr

/-- Gregorian leap-year rule (what JS `Date` day arithmetic implements). -/
def isLeap (y : Nat) : Bool :=
  (y % 4 == 0 && y % 100 != 0) || y % 400 == 0

/-- Number of days in a month (JS `Date` rollover semantics). -/
def daysInMonth (y m : Nat) : Nat :=
  if m = 2 then (if isLeap y then 29 else 28)
  else if m = 4 ∨ m = 6 ∨ m = 9 ∨ m = 11 then 30
  else 31

/-- Days strictly before month `m` within year `y` (month 1-indexed). -/
def daysBeforeMonth (y : Nat) : Nat → Nat
  | 0 => 0
  | 1 => 0
  | m + 2 => daysBeforeMonth y (m + 1) + daysInMonth y (m + 1)

/-- Days strictly before January 1 of year `y` (years counted from 1). -/
def daysBeforeYear (y : Nat) : Nat :=
  365 * (y - 1) + (y - 1) / 4 + (y - 1) / 400 - (y - 1) / 100

/-- Rata-die day number: day 1 is January 1 of year 1 (a Monday). -/
def rataDie (d : Date) : Nat :=
  daysBeforeYear d.year + daysBeforeMonth d.year d.month + d.day

/-- Day of week with the JS `Date.prototype.getDay` encoding: 0 = Sunday. -/
def dayOfWeek (d : Date) : Nat :=
  rataDie d % 7

/-- The calendar successor of a date (JS `setDate(getDate() + 1)`). -/
def nextDay (d : Date) : Date :=
  if d.day < daysInMonth d.year d.month then ⟨d.year, d.month, d.day + 1⟩
  else if d.month < 12 then ⟨d.year, d.month + 1, 1⟩
  else ⟨d.year + 1, 1, 1⟩

/-- Iterated calendar successor. -/
def iterNextDay : Nat → Date → Date
  | 0, d => d
  | k + 1, d => iterNextDay k (nextDay d)

/-- In-range day/month/year fields (what a real JS `Date` always carries). -/
def ValidDate (d : Date) : Prop :=
  1 ≤ d.year ∧ 1 ≤ d.month ∧ d.month ≤ 12 ∧ 1 ≤ d.day ∧ d.day ≤ daysInMonth d.year d.month

instance (d : Date) : Decidable (ValidDate d) := by
  unfold ValidDate; infer_instance

/-- A wall-clock timestamp in the fixed campaign timezone. -/
structure DateTime where
  date : Date
  hour : Nat
  minute : Nat
deriving DecidableEq, Repr

/-- Total minutes since the calendar epoch; orders timestamps the way the
code orders `getTime()` values. -/
def DateTime.epochMin (t : DateTime) : Nat :=
  rataDie t.date * 1440 + t.hour * 60 + t.minute

/-- In-range clock fields. -/
def ValidDT (t : DateTime) : Prop :=
  ValidDate t.date ∧ t.hour < 24 ∧ t.minute < 60

/-! ## String helpers (AdminCore.getBrazilDateString and draw-date parsing) -/

/-- Two-digit zero padding of a numeral (Intl `2-digit` month/day parts). -/
def padZero2 (n : Nat) : String :=
  if n < 10 then "0" ++ toString n else toString n

/-- AdminCore.getBrazilDateString (src/homina/js/pages/entries.js:946):
renders a date as canonical `YYYY-MM-DD`.  The JS invalid-date guard returning
`''` cannot fire here because a `Date` value is always a real date. -/
def getBrazilDateString (d : Date) : String :=
  toString d.year ++ "-" ++ padZero2 d.month ++ "-" ++ padZero2 d.day

/-- JS `toUpperCase` restricted to ASCII (every status string the code
compares against is ASCII); kernel-reducible equivalent of `String.toUpper`. -/
def jsToUpper (s : String) : String :=
  String.mk (s.data.map Char.toUpper)

/-- JS `split` on a character class, as used for draw dates; kernel-reducible
equivalent of `String.split`. -/
def jsSplit (s : String) (p : Char → Bool) : List String :=
  (s.data.splitOnP p).map fun cs => String.mk cs

/-- JS `String.prototype.padStart(2, '0')`. -/
def padStart2 (s : String) : String :=
  if s.length ≥ 2 then s else if s.length = 1 then "0" ++ s else "00"

/-- JS `a || b` on strings (empty string is falsy). -/
def jsOr (a b : String) : String :=
  if a = "" then b else a

/-- Draw-date normalization inlined in findMatchingRecharge
(src/homina/js/unified-page.js:1098-1111): split on `/` or `-`; a 3-part
value whose first part has 4 characters is taken verbatim as `YYYY-MM-DD`,
otherwise it is re-assembled from `DD/MM/YYYY`; anything else (including the
falsy empty string) yields `''`. -/
def normalizeTicketDrawStr (s : String) : String :=
  if s = "" then ""
  else
    match jsSplit s (fun c => c == '/' || c == '-') with
    | [a, b, c] => if a.length = 4 then s else c ++ "-" ++ padStart2 b ++ "-" ++ padStart2 a
    | _ => ""

/-- JS `parseInt(s, 10) || 0`: longest leading (optionally signed) digit
prefix, `0` when there is none (`NaN` is falsy). -/
def parseIntOr0 (s : String) : Int :=
  let core : List Char → Int := fun cs =>
    (cs.takeWhile Char.isDigit).foldl (fun a c => a * 10 + (c.toNat - 48 : Int)) 0
  match s.data with
  | '-' :: t => if (t.takeWhile Char.isDigit) = [] then 0 else - core t
  | t => core t

/-! ## Input records (fields read by the core; absent JS fields are ""/none) -/

/-- A ticket entry as consumed by the validator and winner calculator. -/
structure Entry where
  ticketNumber : String
  gameId : String
  status : String
  parsedDate : Option DateTime
  drawDate : String
  numbers : Option (List Nat)
  contest : String
  platform : String
deriving DecidableEq, Repr

/-- A recharge record. -/
structure Recharge where
  rechargeId : String
  gameId : String
  rechargeTime : Option DateTime
  amount : Nat
deriving DecidableEq, Repr

/-- A posted contest result. -/
structure DrawResult where
  contest : String
  drawDate : String
  numbers : List Nat
  isNoDraw : Bool
deriving DecidableEq, Repr

/-! ## Calendar rules (RechargeValidator, src/homina/js/unified-page.js) -/

/-- Default cutoff hour for same-day draws (20:00 BRT). -/
def DEFAULT_CUTOFF_HOUR : Nat := 20

/-- Early cutoff hour for special days (Dec 24, Dec 31). -/
def EARLY_CUTOFF_HOUR : Nat := 16

/-- isNoDrawDay (unified-page.js:957): Sunday, Dec 25 or Jan 1.
JS `getMonth()` is 0-indexed, so `month === 11` is December and
`month === 0` is January. -/
def isNoDrawDay (d : Date) : Bool :=
  if dayOfWeek d = 0 then true
  else if d.month = 12 && d.day = 25 then true
  else if d.month = 1 && d.day = 1 then true
  else false

/-- isEarlyCutoffDay (unified-page.js:979): Dec 24 or Dec 31. -/
def isEarlyCutoffDay (d : Date) : Bool :=
  d.month == 12 && (d.day == 24 || d.day == 31)

/-- getCutoffHour (unified-page.js:992). -/
def getCutoffHour (d : Date) : Nat :=
  if isEarlyCutoffDay d then EARLY_CUTOFF_HOUR else DEFAULT_CUTOFF_HOUR

/-- The probe loop of getNextValidDrawDate, with the remaining iteration
count as fuel: returns the probe day if it is a draw day, otherwise advances
one calendar day; `none` models the `throw new Error(...)` on exhaustion. -/
def nextValidDrawDateAux : Nat → Date → Option Date
  | 0, _ => none
  | fuel + 1, d => if isNoDrawDay d then nextValidDrawDateAux fuel (nextDay d) else some d

/-- getNextValidDrawDate (unified-page.js:1001): scan up to 14 days ahead
(the start day included); `none` models the explicit
`throw new Error('No valid draw date found in range')`. -/
def getNextValidDrawDate (fromDate : Date) : Option Date :=
  nextValidDrawDateAux 14 fromDate

/-- getEligibleDrawDate (unified-page.js:1024): `none` for an invalid or
missing registration timestamp, the registration day itself when it is a
draw day and the hour is strictly before the cutoff, otherwise the next
valid draw date starting from the following day (whose `throw` is `none`). -/
def getEligibleDrawDate : Option DateTime → Option Date
  | none => none
  | some t =>
      if !isNoDrawDay t.date && t.hour < getCutoffHour t.date then some t.date
      else getNextValidDrawDate (nextDay t.date)

/-! ## Recharge matcher (findMatchingRecharge, unified-page.js:1061) -/

/-- Timestamp of a recharge whose `rechargeTime` is known valid (the code
calls `getTime()` after filtering the invalid ones out). -/
def rechargeMin (r : Recharge) : Nat :=
  match r.rechargeTime with
  | none => 0
  | some t => t.epochMin

/-- The prior-ticket claim check (unified-page.js:1133-1144): does some prior
ticket map, via its own eligible draw date, to the candidate recharge's
eligible draw-date string?  Priors whose eligible draw cannot be determined
are skipped (the `continue`). -/
def rechargeClaimedBy (eligibleDrawStr : String) (priorTickets : List Entry) : Bool :=
  priorTickets.any fun prior =>
    match getEligibleDrawDate prior.parsedDate with
    | none => false
    | some pd => getBrazilDateString pd == eligibleDrawStr

/-- The candidate loop of findMatchingRecharge (unified-page.js:1088-1149)
over the sorted eligible recharges.  For each candidate: skip it when its
eligible draw date cannot be determined or its `YYYY-MM-DD` rendering differs
from the ticket's normalized draw date; otherwise collect the other tickets
registered strictly between the recharge and this ticket, and return the
candidate unless one of them already claims the same draw window. -/
def findRechargeLoop (ticket : Entry) (ticketTime : Nat) (allTickets : List Entry) :
    List Recharge → Option Recharge
  | [] => none
  | r :: rest =>
      match getEligibleDrawDate r.rechargeTime with
      | none => findRechargeLoop ticket ticketTime allTickets rest
      | some eligibleDraw =>
          let eligibleDrawStr := getBrazilDateString eligibleDraw
          let ticketDrawStr := normalizeTicketDrawStr ticket.drawDate
          if ticketDrawStr ≠ eligibleDrawStr then
            findRechargeLoop ticket ticketTime allTickets rest
          else
            let priorTickets := allTickets.filter fun t =>
              t.ticketNumber ≠ ticket.ticketNumber &&
              match t.parsedDate with
              | none => false
              | some pd => decide (pd.epochMin < ticketTime) && decide (rechargeMin r < pd.epochMin)
            if priorTickets = [] then some r
            else if rechargeClaimedBy eligibleDrawStr priorTickets then
              findRechargeLoop ticket ticketTime allTickets rest
            else some r

/-- findMatchingRecharge (unified-page.js:1061): reject on an invalid ticket
timestamp or an empty pool; keep the recharges with a valid timestamp
strictly earlier than the ticket's registration; try them most recent first
(the stable descending sort models the JS comparator sort). -/
def findMatchingRecharge (ticket : Entry) (recharges : List Recharge)
    (allTickets : List Entry) : Option Recharge :=
  match ticket.parsedDate with
  | none => none
  | some td =>
      if recharges = [] then none
      else
        let ticketTime := td.epochMin
        let eligibleRecharges := recharges.filter fun r =>
          match r.rechargeTime with
          | none => false
          | some rt => decide (rt.epochMin < ticketTime)
        if eligibleRecharges = [] then none
        else
          let sorted := eligibleRecharges.insertionSort fun a b => rechargeMin b ≤ rechargeMin a
          findRechargeLoop ticket ticketTime allTickets sorted

/-! ## Ticket validator (validateTicket / validateAllTickets, unified-page.js) -/

/-- ValidationStatus (unified-page.js:941). -/
inductive VStatus where
  | VALID
  | INVALID
  | UNKNOWN
  | CUTOFF
deriving DecidableEq, Repr

/-- The per-ticket validation outcome object built by validateTicket. -/
structure ValidationResult where
  ticket : Entry
  status : VStatus
  reason : String
  matchedRecharge : Option Recharge
  isCutoff : Bool
deriving DecidableEq, Repr

/-- JS template rendering of `R$${matchedRecharge.amount || '?'}` (a falsy
zero amount prints `?`). -/
def amountStr (amount : Nat) : String :=
  if amount = 0 then "?" else toString amount

/-- validateTicket (unified-page.js:1165), parametrized by the recharge
matcher it invokes so that the upstream short-circuit's independence from the
matcher is expressible.  The grouped collections are the lookups
`rechargesByGameId[gameId] || []` and `ticketsByGameId[gameId] || []`. -/
def validateTicketWith
    (matcher : Entry → List Recharge → List Entry → Option Recharge)
    (ticket : Entry) (rechargesByGameId : String → List Recharge)
    (ticketsByGameId : String → List Entry) : ValidationResult :=
  let base : ValidationResult :=
    { ticket := ticket, status := .UNKNOWN, reason := "", matchedRecharge := none,
      isCutoff := false }
  let existingStatus := jsToUpper ticket.status
  if existingStatus ∈ ["VALID", "VALIDADO", "VALIDATED"] then
    { base with status := .VALID, reason := "Pre-validated in source data" }
  else if existingStatus ∈ ["INVALID", "INVÃLIDO"] then
    { base with status := .INVALID, reason := "Marked invalid in source data" }
  else if ticket.gameId = "" then
    { base with status := .INVALID, reason := "Missing Game ID" }
  else
    let recharges := rechargesByGameId ticket.gameId
    let tickets := ticketsByGameId ticket.gameId
    if recharges = [] then
      { base with status := .INVALID,
                  reason := "No recharge found for Game ID: " ++ ticket.gameId }
    else
      let isCutoff :=
        match ticket.parsedDate with
        | none => false
        | some dt =>
            let cutoffHour := getCutoffHour dt.date
            decide (cutoffHour ≤ dt.hour) ||
              (decide (dt.hour + 1 = cutoffHour) && decide (59 < dt.minute))
      match matcher ticket recharges tickets with
      | some matched =>
          { base with status := .VALID,
                      reason := "Matched recharge R$" ++ amountStr matched.amount,
                      matchedRecharge := some matched, isCutoff := isCutoff }
      | none =>
          { base with status := .INVALID,
                      reason := "Recharge exists but timing does not match draw window",
                      isCutoff := isCutoff }

/-- validateTicket with its actual matcher. -/
def validateTicket (ticket : Entry) (rechargesByGameId : String → List Recharge)
    (ticketsByGameId : String → List Entry) : ValidationResult :=
  validateTicketWith findMatchingRecharge ticket rechargesByGameId ticketsByGameId

/-- The `rechargesByGameId` grouping of validateAllTickets
(unified-page.js:1257-1264): records with a falsy game id are skipped, the
rest keep input order; looked up as `rechargesByGameId[g] || []`. -/
def groupRechargesByGameId (recharges : List Recharge) : String → List Recharge :=
  fun g => if g = "" then [] else recharges.filter fun r => r.gameId == g

/-- The `ticketsByGameId` grouping of validateAllTickets
(unified-page.js:1267-1274). -/
def groupTicketsByGameId (entries : List Entry) : String → List Entry :=
  fun g => if g = "" then [] else entries.filter fun e => e.gameId == g

/-- The aggregate statistics object of validateAllTickets. -/
structure ValidationStats where
  total : Nat
  valid : Nat
  invalid : Nat
  unknown : Nat
  cutoff : Nat
deriving DecidableEq, Repr

/-- The statistics update of one loop iteration (unified-page.js:1297-1310):
the `switch` counts VALID and INVALID and everything else as unknown, and the
cutoff counter is incremented independently. -/
def updateStats (stats : ValidationStats) (v : ValidationResult) : ValidationStats :=
  let stats :=
    match v.status with
    | .VALID => { stats with valid := stats.valid + 1 }
    | .INVALID => { stats with invalid := stats.invalid + 1 }
    | _ => { stats with unknown := stats.unknown + 1 }
  if v.isCutoff then { stats with cutoff := stats.cutoff + 1 } else stats

/-- The full return value of validateAllTickets. -/
structure ValidationRun where
  results : List ValidationResult
  stats : ValidationStats
  rechargeCount : Nat
deriving DecidableEq, Repr

/-- Split a list into consecutive batches of size `b` (the
`entries.slice(i, i + batchSize)` loop); the fuel argument is bounded by the
list length, which suffices for any `b ≥ 1`. -/
def chunksOfAux (b : Nat) : Nat → List α → List (List α)
  | 0, _ => []
  | _, [] => []
  | fuel + 1, l => l.take b :: chunksOfAux b fuel (l.drop b)

/-- Consecutive batches of size `b`. -/
def chunksOf (b : Nat) (l : List α) : List (List α) :=
  chunksOfAux b l.length l

/-- One validation step of the inner per-entry loop. -/
def validateStep (rbg : String → List Recharge) (tbg : String → List Entry)
    (acc : List ValidationResult × ValidationStats) (e : Entry) :
    List ValidationResult × ValidationStats :=
  let v := validateTicket e rbg tbg
  (acc.1 ++ [v], updateStats acc.2 v)

/-- validateAllTickets (unified-page.js:1244), with the batch size as a
parameter (the source fixes it to 50).  The `await`ed 5 ms yield between
batches only suspends; it does not change what is computed.  The cache
look-up at the top can never return early: it requires
`cached.entriesCount === entries.length`, but the cached object
`{results, stats, rechargeCount}` has no `entriesCount` field, so the
condition is always false and the function always recomputes. -/
def validateAllTicketsBatched (batchSize : Nat) (entries : List Entry)
    (recharges : List Recharge) : ValidationRun :=
  let rbg := groupRechargesByGameId recharges
  let tbg := groupTicketsByGameId entries
  let init : List ValidationResult × ValidationStats :=
    ([], { total := entries.length, valid := 0, invalid := 0, unknown := 0, cutoff := 0 })
  let out := (chunksOf batchSize entries).foldl
    (fun acc batch => batch.foldl (validateStep rbg tbg) acc) init
  { results := out.1, stats := out.2, rechargeCount := recharges.length }

/-- validateAllTickets with the source's batch size. -/
def validateAllTickets (entries : List Entry) (recharges : List Recharge) : ValidationRun :=
  validateAllTicketsBatched 50 entries recharges

/-! ## Winner calculator (src/homina/js/winner-calculator.js) -/

/-- Default prize pool per contest (winner-calculator.js:33). -/
def DEFAULT_PRIZE_POOL : Rat := 1000

/-- Minimum matches to qualify as a winner (winner-calculator.js:38). -/
def MIN_MATCHES_TO_WIN : Nat := 3

/-- AdminCore.getPlatformPrize (pages/entries.js:1324) over PLATFORM_PRIZES
(pages/entries.js:827): `PLATFORM_PRIZES[platform] || PLATFORM_PRIZES.DEFAULT`,
currently 1000 for every key. -/
def getPlatformPrize (platform : String) : Rat :=
  if platform = "POPN1" then 1000
  else if platform = "POPLUZ" then 1000
  else if platform = "DEFAULT" then 1000
  else 1000

/-- getPrizePool (winner-calculator.js:45); AdminCore is always loaded on the
dashboard page, so the lookup delegates to getPlatformPrize. -/
def getPrizePool (platform : String) : Rat :=
  getPlatformPrize platform

/-- INVALID_STATUSES (winner-calculator.js:57). -/
def INVALID_STATUSES : List String := ["INVALID", "INVÃLIDO", "REJECTED", "CANCELLED"]

/-- countMatches (winner-calculator.js:80): the entry numbers present among
the winning numbers, with the count taken before the ascending sort. -/
structure MatchResult where
  count : Nat
  matchedNumbers : List Nat
deriving DecidableEq, Repr

/-- countMatches (winner-calculator.js:80). -/
def countMatches (entryNumbers winningNumbers : List Nat) : MatchResult :=
  let matched := entryNumbers.filter fun n => winningNumbers.contains n
  { count := matched.length,
    matchedNumbers := matched.insertionSort fun a b => a ≤ b }

/-- isValidEntry (winner-calculator.js:94): valid unless the upper-cased
status is explicitly one of the invalid statuses. -/
def isValidEntry (entry : Entry) : Bool :=
  !(INVALID_STATUSES.contains (jsToUpper entry.status))

/-- A scored entry as pushed into `byTier` and `winners` (the JS object
spread `{...entry, matches, matchedNumbers, isValidEntry}`).  The JS field
`matches` is a Lean keyword and is called `matchCount` here. -/
structure Winner where
  entry : Entry
  matchCount : Nat
  matchedNumbers : List Nat
  isValidEntry : Bool
deriving DecidableEq, Repr

/-- The body of the per-entry forEach (winner-calculator.js:139-162) as a
partial map: entries with a missing or empty numbers list, or matching no
winning number, produce nothing. -/
def scoreEntry (winningNumbers : List Nat) (entry : Entry) : Option Winner :=
  match entry.numbers with
  | none => none
  | some ns =>
      if ns = [] then none
      else
        let m := countMatches ns winningNumbers
        if m.count > 0 then
          some { entry := entry, matchCount := m.count, matchedNumbers := m.matchedNumbers,
                 isValidEntry := isValidEntry entry }
        else none

/-- All scored entries in input order (the order the forEach pushes them). -/
def scoredEntries (entries : List Entry) (winningNumbers : List Nat) : List Winner :=
  entries.filterMap (scoreEntry winningNumbers)

/-- The `byTier[k]` bucket: scored entries with exactly `k` matches, in push
order.  (A hypothetical match count outside 1..5 has no bucket in the JS
object and is dropped there too.) -/
def byTierBucket (entries : List Entry) (winningNumbers : List Nat) (k : Nat) : List Winner :=
  (scoredEntries entries winningNumbers).filter fun w => w.matchCount == k

/-- The result object of calculateContestWinners.  The no-result branch of
the JS code omits `validEntries` and `totalPrizeAwarded` (they are
`undefined`); they are modelled as 0 there.  The presentation-only `tierInfo`
lookup is not modelled. -/
structure ContestWinners where
  contest : String
  drawDate : String
  winningNumbers : List Nat
  hasResult : Bool
  totalEntries : Nat
  validEntries : Nat
  winners : List Winner
  byTier5 : List Winner
  byTier4 : List Winner
  byTier3 : List Winner
  byTier2 : List Winner
  byTier1 : List Winner
  winningTier : Nat
  prizePerWinner : Rat
  prizePool : Rat
  totalPrizeAwarded : Rat
  platform : String
deriving DecidableEq, Repr

/-- Access a tier bucket of the result by match count. -/
def ContestWinners.byTier (c : ContestWinners) : Nat → List Winner
  | 5 => c.byTier5
  | 4 => c.byTier4
  | 3 => c.byTier3
  | 2 => c.byTier2
  | 1 => c.byTier1
  | _ => []

/-- calculateContestWinners (winner-calculator.js:112).  `contestId = ""`
models the `null` default; the `result?.contest || contestId ||
entries[0]?.contest || 'Unknown'` chain is the jsOr cascade. -/
def calculateContestWinners (entries : List Entry) (result : Option DrawResult)
    (platform : String) (contestId : String) : ContestWinners :=
  let contest :=
    jsOr (match result with | some r => r.contest | none => "")
      (jsOr contestId (jsOr (match entries.head? with | some e => e.contest | none => "")
        "Unknown"))
  let drawDate := match result with | some r => r.drawDate | none => ""
  match result with
  | none =>
      { contest := contest, drawDate := drawDate, winningNumbers := [], hasResult := false,
        totalEntries := entries.length, validEntries := 0, winners := [],
        byTier5 := [], byTier4 := [], byTier3 := [], byTier2 := [], byTier1 := [],
        winningTier := 0, prizePerWinner := 0, prizePool := getPrizePool platform,
        totalPrizeAwarded := 0, platform := platform }
  | some r =>
      if r.isNoDraw || r.numbers.length ≠ 5 then
        { contest := contest, drawDate := drawDate, winningNumbers := [], hasResult := false,
          totalEntries := entries.length, validEntries := 0, winners := [],
          byTier5 := [], byTier4 := [], byTier3 := [], byTier2 := [], byTier1 := [],
          winningTier := 0, prizePerWinner := 0, prizePool := getPrizePool platform,
          totalPrizeAwarded := 0, platform := platform }
      else
        let winningNumbers := r.numbers
        let prizePool := getPrizePool platform
        let scored := scoredEntries entries winningNumbers
        let winners := scored.filter fun w =>
          w.isValidEntry && decide (w.matchCount ≥ MIN_MATCHES_TO_WIN)
        let winnersSorted := winners.insertionSort fun a b => b.matchCount ≤ a.matchCount
        let bucket := fun k => scored.filter fun w => w.matchCount == k
        let validInTier := fun k => (bucket k).filter fun w => w.isValidEntry
        let winningTier :=
          if validInTier 5 ≠ [] then 5
          else if validInTier 4 ≠ [] then 4
          else if validInTier 3 ≠ [] then 3
          else 0
        let tierWinners := validInTier winningTier
        let prizePerWinner : Rat :=
          if winningTier > 0 && tierWinners ≠ [] then prizePool / tierWinners.length else 0
        let totalPrizeAwarded : Rat :=
          if winningTier > 0 && tierWinners ≠ [] then prizePool else 0
        { contest := contest, drawDate := drawDate, winningNumbers := winningNumbers,
          hasResult := true, totalEntries := entries.length,
          validEntries := (entries.filter fun e => isValidEntry e).length,
          winners := winnersSorted,
          byTier5 := bucket 5, byTier4 := bucket 4, byTier3 := bucket 3,
          byTier2 := bucket 2, byTier1 := bucket 1,
          winningTier := winningTier, prizePerWinner := prizePerWinner,
          prizePool := prizePool, totalPrizeAwarded := totalPrizeAwarded,
          platform := platform }

/-! ## Campaign aggregator (calculateAllWinners, winner-calculator.js:213) -/

/-- DataStore.filterByPlatform (data-store.js:466): identity for a falsy or
`'ALL'` platform, else keep the entries whose platform (defaulting to
`POPN1`) matches case-insensitively. -/
def filterByPlatform (entries : List Entry) (platform : String) : List Entry :=
  if platform = "" || platform = "ALL" then entries
  else entries.filter fun e => jsToUpper (jsOr e.platform "POPN1") == jsToUpper platform

/-- DataFetcher.groupEntriesByContest (unified-page.js:1993) as a lookup:
entries are keyed by `entry.contest || 'Unknown'`, each bucket in input
order; `entriesByContest[c] || []` is the lookup at `c`. -/
def groupEntriesByContest (entries : List Entry) (c : String) : List Entry :=
  entries.filter fun e => jsOr e.contest "Unknown" == c

/-- The `resultsMap` built in calculateAllWinners (winner-calculator.js:238):
a `Map` keyed by truthy contest ids, later `set`s overwriting earlier ones,
so the lookup finds the last matching result. -/
def resultsLookup (results : List DrawResult) (c : String) : Option DrawResult :=
  (results.filter fun r => r.contest ≠ "" && r.contest == c).getLast?

/-- Append a key unless already present (one `Set.add` step; JS `Set`
iterates in insertion order). -/
def dedupAppend (l : List String) (s : String) : List String :=
  if l.contains s then l else l ++ [s]

/-- The contest universe (winner-calculator.js:238-246): the truthy contest
ids of the results in order, then the contest keys of the grouped entries.
A JS object enumerates integer-like keys first in ascending numeric order,
which may permute the entries-derived tail of this list relative to the
model; no statement proved below depends on the order of this list. -/
def contestUniverse (results : List DrawResult) (entries : List Entry) : List String :=
  let fromResults := results.foldl
    (fun acc r => if r.contest ≠ "" then dedupAppend acc r.contest else acc) []
  (entries.map fun e => jsOr e.contest "Unknown").foldl dedupAppend fromResults

/-- The aggregate statistics object of calculateAllWinners. -/
structure WinnersStats where
  totalContests : Nat
  contestsWithWinners : Nat
  byTier5 : Nat
  byTier4 : Nat
  byTier3 : Nat
  byTier2 : Nat
  byTier1 : Nat
  totalWinners : Nat
  totalPrizeAwarded : Rat
  platform : String
  prizePool : Rat
deriving DecidableEq, Repr

/-- The return value of calculateAllWinners. -/
structure AllWinnersResult where
  contestResults : List ContestWinners
  allWinners : List Winner
  stats : WinnersStats
  platform : String
deriving DecidableEq, Repr

/-- Count of valid scored entries in one tier bucket of a contest result. -/
def validTierCount (cw : ContestWinners) (k : Nat) : Nat :=
  ((cw.byTier k).filter fun w => w.isValidEntry).length

/-- One iteration of the per-contest loop (winner-calculator.js:272-295):
resolve the contest, append its result, and when it has a posted result
accumulate the statistics and winners.  `totalPrizeAwarded ||
prizePool` falls back to the pool when the contest's awarded total is falsy. -/
def contestStep (entriesByContest : String → List Entry)
    (results : List DrawResult) (effectivePlatform : String) (prizePool : Rat)
    (acc : List ContestWinners × List Winner × WinnersStats) (contest : String) :
    List ContestWinners × List Winner × WinnersStats :=
  let contestEntries := entriesByContest contest
  let result := resultsLookup results contest
  let cw := calculateContestWinners contestEntries result effectivePlatform contest
  let contestResults := acc.1 ++ [cw]
  if cw.hasResult then
    let stats := acc.2.2
    let stats := { stats with totalContests := stats.totalContests + 1 }
    let stats :=
      if cw.winningTier > 0 then
        { stats with
            contestsWithWinners := stats.contestsWithWinners + 1,
            totalPrizeAwarded := stats.totalPrizeAwarded +
              (if cw.totalPrizeAwarded = 0 then prizePool else cw.totalPrizeAwarded) }
      else stats
    let stats :=
      { stats with
          byTier5 := stats.byTier5 + validTierCount cw 5,
          byTier4 := stats.byTier4 + validTierCount cw 4,
          byTier3 := stats.byTier3 + validTierCount cw 3,
          byTier2 := stats.byTier2 + validTierCount cw 2,
          byTier1 := stats.byTier1 + validTierCount cw 1 }
    (contestResults, acc.2.1 ++ cw.winners, stats)
  else
    (contestResults, acc.2.1, acc.2.2)

/-- calculateAllWinners (winner-calculator.js:213), the computation performed
on a cache miss.  The batched loop over `contestKeys` (batch size 10 with a
5 ms yield in between) visits exactly the keys in order, so it is modelled as
one fold.  The unused `cacheKey` local is not modelled; the cache look-up
around the computation is `calculateAllWinnersCached` below. -/
def calculateAllWinners (entries : List Entry) (results : List DrawResult)
    (platform : String) : AllWinnersResult :=
  let filteredEntries := filterByPlatform entries platform
  let entriesByContest := groupEntriesByContest filteredEntries
  let effectivePlatform := if platform = "ALL" then "DEFAULT" else platform
  let prizePool := getPrizePool effectivePlatform
  let contestKeys := contestUniverse results filteredEntries
  let stats0 : WinnersStats :=
    { totalContests := 0, contestsWithWinners := 0,
      byTier5 := 0, byTier4 := 0, byTier3 := 0, byTier2 := 0, byTier1 := 0,
      totalWinners := 0, totalPrizeAwarded := 0, platform := platform,
      prizePool := prizePool }
  let out := contestKeys.foldl
    (contestStep entriesByContest results effectivePlatform prizePool)
    ([], [], stats0)
  let allWinners := out.2.1
  let stats := { out.2.2 with totalWinners := allWinners.length }
  let sorted := out.1.insertionSort fun a b =>
    parseIntOr0 b.contest ≤ parseIntOr0 a.contest
  { contestResults := sorted, allWinners := allWinners, stats := stats,
    platform := platform }

/-! ## The DataFetcher winners cache (unified-page.js:1538-1595) -/

/-- simpleHash (unified-page.js:1538) specialized to entry arrays:
`${length}-${first key}-${last key}` where an element's key is its
`ticketNumber || contest || ''`. -/
def entryHashKey (e : Entry) : String :=
  jsOr e.ticketNumber (jsOr e.contest "")

/-- simpleHash over the entries array. -/
def simpleHashEntries (l : List Entry) : String :=
  toString l.length ++ "-" ++
    (match l.head? with | none => "" | some e => entryHashKey e) ++ "-" ++
    (match l.getLast? with | none => "" | some e => entryHashKey e)

/-- simpleHash over the results array (result rows have no `ticketNumber`,
so the key falls through to `contest`). -/
def simpleHashResults (l : List DrawResult) : String :=
  toString l.length ++ "-" ++
    (match l.head? with | none => "" | some r => jsOr r.contest "") ++ "-" ++
    (match l.getLast? with | none => "" | some r => jsOr r.contest "")

/-- The `cache.winners` slot of DataFetcher (unified-page.js:1524). -/
structure WinnersCache where
  data : Option AllWinnersResult
  entriesHash : String
  resultsHash : String
deriving DecidableEq, Repr

/-- isWinnersCacheValid (unified-page.js:1591). -/
def isWinnersCacheValid (cache : WinnersCache) (entries : List Entry)
    (results : List DrawResult) : Bool :=
  match cache.data with
  | none => false
  | some _ =>
      cache.entriesHash == simpleHashEntries entries &&
      cache.resultsHash == simpleHashResults results

/-- calculateAllWinners including its cache protocol
(winner-calculator.js:214-222 and 320-325): when the cache is valid and the
cached result's platform matches, return it and leave the cache untouched;
otherwise compute and store the result with the input hashes. -/
def calculateAllWinnersCached (cache : WinnersCache) (entries : List Entry)
    (results : List DrawResult) (platform : String) :
    AllWinnersResult × WinnersCache :=
  match cache.data with
  | some cached =>
      if isWinnersCacheValid cache entries results && cached.platform == platform then
        (cached, cache)
      else
        let r := calculateAllWinners entries results platform
        (r, { data := some r, entriesHash := simpleHashEntries entries,
              resultsHash := simpleHashResults results })
  | none =>
      let r := calculateAllWinners entries results platform
      (r, { data := some r, entriesHash := simpleHashEntries entries,
            resultsHash := simpleHashResults results })

/-! ## Specification-side definitions (for refinement comparisons)

These two definitions follow the specification's words (section 4.5 /
section 8), to be compared with what `calculateContestWinners` computes. -/

/-- Spec 4.5: the valid entries of the tier-`k` bucket of a contest. -/
def specValidBucket (entries : List Entry) (winningNumbers : List Nat) (k : Nat) :
    List Winner :=
  (byTierBucket entries winningNumbers k).filter fun w => w.isValidEntry

/-- Spec 4.5: "Winning tier = highest match count in the inclusive range
[minimum-winning-matches=3, 5] that has ≥ 1 valid entry in its bucket; 0 if
none." -/
def specWinningTier (entries : List Entry) (winningNumbers : List Nat) : Nat :=
  if specValidBucket entries winningNumbers 5 ≠ [] then 5
  else if specValidBucket entries winningNumbers 4 ≠ [] then 4
  else if specValidBucket entries winningNumbers 3 ≠ [] then 3
  else 0

/-! ## Concrete data for witnesses and counterexamples -/

/-- A ticket pre-validated upstream. -/
def preValidatedTicket : Entry :=
  { ticketNumber := "T9", gameId := "G9", status := "VALID",
    parsedDate := some ⟨⟨2024, 5, 6⟩, 10, 0⟩, drawDate := "2024-05-06",
    numbers := some [1, 2, 3, 4, 5], contest := "10", platform := "" }

/-- A ticket registered at 21:00 on Monday 2024-05-06 (a plain draw day with
cutoff hour 20). -/
def lateTicket : Entry :=
  { ticketNumber := "T1", gameId := "A", status := "",
    parsedDate := some ⟨⟨2024, 5, 6⟩, 21, 0⟩, drawDate := "2024-05-07",
    numbers := none, contest := "", platform := "" }

/-- A recharge of owner `A` at 09:00 on Monday 2024-05-06. -/
def morningRecharge : Recharge :=
  { rechargeId := "R1", gameId := "A", rechargeTime := some ⟨⟨2024, 5, 6⟩, 9, 0⟩,
    amount := 10 }

/-- Owner `A`'s first ticket, 10:00 on Monday 2024-05-06, draw date that day. -/
def ticketT1 : Entry :=
  { ticketNumber := "T1", gameId := "A", status := "",
    parsedDate := some ⟨⟨2024, 5, 6⟩, 10, 0⟩, drawDate := "2024-05-06",
    numbers := none, contest := "", platform := "" }

/-- Owner `A`'s second ticket, 11:00 the same day, same draw date. -/
def ticketT2 : Entry :=
  { ticketNumber := "T2", gameId := "A", status := "",
    parsedDate := some ⟨⟨2024, 5, 6⟩, 11, 0⟩, drawDate := "2024-05-06",
    numbers := none, contest := "", platform := "" }

/-- A contest entry choosing the given numbers, keyed by ticket number. -/
def mkContestEntry (tn : String) (ns : List Nat) : Entry :=
  { ticketNumber := tn, gameId := tn, status := "",
    parsedDate := none, drawDate := "", numbers := some ns, contest := "7",
    platform := "" }

/-- Contest 7: two tickets matching all 5 numbers, three matching 4. -/
def tierScenarioEntries : List Entry :=
  [mkContestEntry "A" [1, 2, 3, 4, 5], mkContestEntry "B" [1, 2, 3, 4, 5],
   mkContestEntry "C" [1, 2, 3, 4, 9], mkContestEntry "D" [1, 2, 3, 4, 9],
   mkContestEntry "E" [1, 2, 3, 4, 9]]

/-- The posted result of contest 7. -/
def result7 : DrawResult :=
  { contest := "7", drawDate := "2024-05-06", numbers := [1, 2, 3, 4, 5],
    isNoDraw := false }

/-- A malformed result of contest 7 carrying only 4 winning numbers. -/
def result7Malformed : DrawResult :=
  { contest := "7", drawDate := "2024-05-06", numbers := [1, 2, 3, 4],
    isNoDraw := false }

/-- An entry of contest 7 with no chosen-numbers list. -/
def noNumbersEntry : Entry :=
  { ticketNumber := "N0", gameId := "N0", status := "",
    parsedDate := none, drawDate := "", numbers := none, contest := "7",
    platform := "" }

/-! ## C6: upstream pre-validated tickets short-circuit the matcher -/

/-- C6 counterexample: at a concrete pre-validated ticket, validateTicket
does return VALID and does not consult the matcher, but the reason string is
the code's `Pre-validated in source data`, not the claimed
`pre-validated upstream`. -/
theorem validateTicket_preValidated_reason_cex :
    (validateTicket preValidatedTicket (fun _ => []) (fun _ => [])).status = VStatus.VALID ∧
    (validateTicket preValidatedTicket (fun _ => []) (fun _ => [])).reason =
      "Pre-validated in source data" ∧
    (validateTicket preValidatedTicket (fun _ => []) (fun _ => [])).reason ≠
      "pre-validated upstream" := by
  decide

/-- C6 (amended): for every ticket whose upstream status already means
validated (VALID/VALIDADO/VALIDATED, case-insensitive), validateTicket
returns status VALID with the pre-validated-upstream reason (the literal
string `Pre-validated in source data`), no matched recharge, and never
invokes the recharge matcher: the outcome is the same for every matcher. -/
theorem validateTicket_preValidated
    (matcher matcher' : Entry → List Recharge → List Entry → Option Recharge)
    (t : Entry) (rbg : String → List Recharge) (tbg : String → List Entry)
    (h : jsToUpper t.status ∈ ["VALID", "VALIDADO", "VALIDATED"]) :
    (validateTicketWith matcher t rbg tbg).status = VStatus.VALID ∧
    (validateTicketWith matcher t rbg tbg).reason = "Pre-validated in source data" ∧
    (validateTicketWith matcher t rbg tbg).matchedRecharge = none ∧
    validateTicketWith matcher t rbg tbg = validateTicketWith matcher' t rbg tbg := by
  unfold validateTicketWith
  rw [if_pos h, if_pos h]
  exact ⟨rfl, rfl, rfl, rfl⟩

/-- C6 witness: the amended theorem applied to a concrete pre-validated
ticket, with two matchers that disagree everywhere. -/
theorem validateTicket_preValidated_witness :
    (validateTicketWith (fun _ _ _ => none) preValidatedTicket
        (fun _ => []) (fun _ => [])).status = VStatus.VALID ∧
    (validateTicketWith (fun _ _ _ => none) preValidatedTicket
        (fun _ => []) (fun _ => [])).reason = "Pre-validated in source data" ∧
    (validateTicketWith (fun _ _ _ => none) preValidatedTicket
        (fun _ => []) (fun _ => [])).matchedRecharge = none ∧
    validateTicketWith (fun _ _ _ => none) preValidatedTicket (fun _ => []) (fun _ => []) =
      validateTicketWith (fun _ _ _ => some morningRecharge) preValidatedTicket
        (fun _ => []) (fun _ => []) :=
  validateTicket_preValidated (fun _ _ _ => none) (fun _ _ _ => some morningRecharge)
    preValidatedTicket (fun _ => []) (fun _ => []) (by decide)

/-! ## C1: the cutoff flag -/

/-- C1 counterexample: a ticket registered at 21:00 on a plain Monday (cutoff
hour 20) has cutoffFlag `false` when its owner has no recharge on record —
validateTicket returns before computing the flag — and `true` once any
recharge exists, so the flag is neither "true exactly when the registration
hour is at or after the cutoff hour" nor independent of recharge
availability. -/
theorem validateTicket_cutoff_cex :
    getCutoffHour ⟨2024, 5, 6⟩ ≤ 21 ∧
    (validateTicket lateTicket (fun _ => []) (fun _ => [lateTicket])).isCutoff = false ∧
    (validateTicket lateTicket (fun _ => [morningRecharge])
      (fun _ => [lateTicket])).isCutoff = true := by
  decide

/-- C1 (amended): for every ticket that is not short-circuited by an
upstream status, that has an owner id and at least one recharge on record
for that owner, and whose registration timestamp parses (with a real minute
value), the cutoff flag of validateTicket's outcome is true exactly when the
registration hour is at or after the cutoff hour of the registration day;
given those preconditions the flag does not depend on which recharges exist
or on whether a recharge is matched. -/
theorem validateTicket_cutoffFlag (t : Entry) (rbg : String → List Recharge)
    (tbg : String → List Entry) (dt : DateTime)
    (hs1 : jsToUpper t.status ∉ ["VALID", "VALIDADO", "VALIDATED"])
    (hs2 : jsToUpper t.status ∉ ["INVALID", "INVÃLIDO"])
    (hg : t.gameId ≠ "")
    (hr : rbg t.gameId ≠ [])
    (hd : t.parsedDate = some dt)
    (hm : dt.minute < 60) :
    (validateTicket t rbg tbg).isCutoff = true ↔ getCutoffHour dt.date ≤ dt.hour := by
  unfold validateTicket validateTicketWith
  rw [if_neg hs1, if_neg hs2, if_neg hg, if_neg hr]
  cases hfm : findMatchingRecharge t (rbg t.gameId) (tbg t.gameId) <;>
    simp [hfm, hd, Bool.or_eq_true, Bool.and_eq_true, decide_eq_true_eq] <;>
    omega

/-- C1 witness: the amended theorem at the 21:00 Monday ticket whose owner
has one recharge. -/
theorem validateTicket_cutoffFlag_witness :
    (validateTicket lateTicket (fun _ => [morningRecharge])
        (fun _ => [lateTicket])).isCutoff = true ↔
      getCutoffHour ⟨2024, 5, 6⟩ ≤ 21 :=
  validateTicket_cutoffFlag lateTicket (fun _ => [morningRecharge])
    (fun _ => [lateTicket]) ⟨⟨2024, 5, 6⟩, 21, 0⟩ (by decide) (by decide) (by decide)
    (by decide) (by decide) (by decide)

/-! ## C10: entries without numbers, or matching nothing, are inert -/

/-- An entry with a missing or empty numbers list, or matching no winning
number, is skipped by the scoring forEach. -/
theorem scoreEntry_eq_none (wn : List Nat) (e : Entry)
    (he : e.numbers = none ∨ e.numbers = some [] ∨
      (countMatches (e.numbers.getD []) wn).count = 0) :
    scoreEntry wn e = none := by
  rcases he with h | h | h
  · simp [scoreEntry, h]
  · simp [scoreEntry, h]
  · cases hn : e.numbers with
    | none => simp [scoreEntry, hn]
    | some ns =>
        rw [hn] at h
        simp only [Option.getD_some] at h
        by_cases hns : ns = []
        · simp [scoreEntry, hn, hns]
        · simp [scoreEntry, hn, hns, h]

/-- C10: in calculateContestWinners, an entry whose chosen-numbers list is
missing or empty, and any entry matching zero winning numbers, is counted in
totalEntries but appears in no byTier bucket and never in the winners list,
and contributes nothing to the winning tier or prize division: removing it
changes totalEntries by exactly one and leaves winners, every tier bucket,
the winning tier, the prize-per-winner and the total awarded unchanged. -/
theorem calculateContestWinners_inert_entry
    (pre post : List Entry) (e : Entry) (r : DrawResult) (platform cid : String)
    (hnd : r.isNoDraw = false) (hlen : r.numbers.length = 5)
    (he : e.numbers = none ∨ e.numbers = some [] ∨
      (countMatches (e.numbers.getD []) r.numbers).count = 0) :
    (calculateContestWinners (pre ++ e :: post) (some r) platform cid).totalEntries =
      (calculateContestWinners (pre ++ post) (some r) platform cid).totalEntries + 1 ∧
    (calculateContestWinners (pre ++ e :: post) (some r) platform cid).winners =
      (calculateContestWinners (pre ++ post) (some r) platform cid).winners ∧
    (∀ k, (calculateContestWinners (pre ++ e :: post) (some r) platform cid).byTier k =
      (calculateContestWinners (pre ++ post) (some r) platform cid).byTier k) ∧
    (calculateContestWinners (pre ++ e :: post) (some r) platform cid).winningTier =
      (calculateContestWinners (pre ++ post) (some r) platform cid).winningTier ∧
    (calculateContestWinners (pre ++ e :: post) (some r) platform cid).prizePerWinner =
      (calculateContestWinners (pre ++ post) (some r) platform cid).prizePerWinner ∧
    (calculateContestWinners (pre ++ e :: post) (some r) platform cid).totalPrizeAwarded =
      (calculateContestWinners (pre ++ post) (some r) platform cid).totalPrizeAwarded := by
  have hscore := scoreEntry_eq_none r.numbers e he
  have hsc : scoredEntries (pre ++ e :: post) r.numbers =
      scoredEntries (pre ++ post) r.numbers := by
    simp [scoredEntries, List.filterMap_append, List.filterMap_cons, hscore]
  refine ⟨?_, ?_, ?_, ?_, ?_, ?_⟩
  · simp only [calculateContestWinners, hnd, hlen]
    simp [List.length_append]
    omega
  · simp only [calculateContestWinners, hnd, hlen]
    simp [hsc]
  · intro k
    match k with
    | 0 | 1 | 2 | 3 | 4 | 5 | (n + 6) =>
      simp [calculateContestWinners, hnd, hlen, ContestWinners.byTier, hsc]
  · simp only [calculateContestWinners, hnd, hlen]
    simp [hsc]
  · simp only [calculateContestWinners, hnd, hlen]
    simp [hsc]
  · simp only [calculateContestWinners, hnd, hlen]
    simp [hsc]

/-- C10 witness: the theorem applied with one 5-match entry kept and the
no-numbers entry removed. -/
theorem calculateContestWinners_inert_entry_witness :
    (calculateContestWinners [mkContestEntry "A" [1, 2, 3, 4, 5], noNumbersEntry]
        (some result7) "POPN1" "").totalEntries =
      (calculateContestWinners [mkContestEntry "A" [1, 2, 3, 4, 5]]
        (some result7) "POPN1" "").totalEntries + 1 ∧
    (calculateContestWinners [mkContestEntry "A" [1, 2, 3, 4, 5], noNumbersEntry]
        (some result7) "POPN1" "").winners =
      (calculateContestWinners [mkContestEntry "A" [1, 2, 3, 4, 5]]
        (some result7) "POPN1" "").winners ∧
    (∀ k, (calculateContestWinners [mkContestEntry "A" [1, 2, 3, 4, 5], noNumbersEntry]
        (some result7) "POPN1" "").byTier k =
      (calculateContestWinners [mkContestEntry "A" [1, 2, 3, 4, 5]]
        (some result7) "POPN1" "").byTier k) ∧
    (calculateContestWinners [mkContestEntry "A" [1, 2, 3, 4, 5], noNumbersEntry]
        (some result7) "POPN1" "").winningTier =
      (calculateContestWinners [mkContestEntry "A" [1, 2, 3, 4, 5]]
        (some result7) "POPN1" "").winningTier ∧
    (calculateContestWinners [mkContestEntry "A" [1, 2, 3, 4, 5], noNumbersEntry]
        (some result7) "POPN1" "").prizePerWinner =
      (calculateContestWinners [mkContestEntry "A" [1, 2, 3, 4, 5]]
        (some result7) "POPN1" "").prizePerWinner ∧
    (calculateContestWinners [mkContestEntry "A" [1, 2, 3, 4, 5], noNumbersEntry]
        (some result7) "POPN1" "").totalPrizeAwarded =
      (calculateContestWinners [mkContestEntry "A" [1, 2, 3, 4, 5]]
        (some result7) "POPN1" "").totalPrizeAwarded :=
  calculateContestWinners_inert_entry [mkContestEntry "A" [1, 2, 3, 4, 5]] []
    noNumbersEntry result7 "POPN1" "" (by decide) (by decide) (Or.inl (by decide))

/-! ## C4: malformed results degrade to a zero-value set -/

/-- Fold invariant helper. -/
theorem foldl_inv {α β : Type _} {P : β → Prop} (f : β → α → β) (l : List α) (init : β)
    (h0 : P init) (hstep : ∀ b a, a ∈ l → P b → P (f b a)) : P (l.foldl f init) := by
  induction l generalizing init with
  | nil => exact h0
  | cons a l ih =>
      exact ih (f init a) (hstep init a (List.mem_cons_self a l) h0)
        (fun b x hx hb => hstep b x (List.mem_cons_of_mem a hx) hb)

/-- A scored winner carries the entry it was scored from. -/
theorem scoreEntry_entry_eq (wn : List Nat) (e : Entry) (w : Winner)
    (h : scoreEntry wn e = some w) : w.entry = e := by
  unfold scoreEntry at h
  cases hn : e.numbers with
  | none => rw [hn] at h; exact absurd h (by simp)
  | some ns =>
      rw [hn] at h
      by_cases hns : ns = []
      · simp [hns] at h
      · simp only [if_neg hns] at h
        by_cases hc : (countMatches ns wn).count > 0
        · simp only [if_pos hc, Option.some.injEq] at h
          rw [← h]
        · simp [hc] at h

/-- hasResult is true exactly for a present, non-no-draw, 5-number result. -/
theorem calc_hasResult_iff (entries : List Entry) (result : Option DrawResult)
    (platform cid : String) :
    (calculateContestWinners entries result platform cid).hasResult = true ↔
      ∃ r, result = some r ∧ r.isNoDraw = false ∧ r.numbers.length = 5 := by
  cases result with
  | none => simp [calculateContestWinners]
  | some r =>
      by_cases h : r.isNoDraw <;> by_cases h2 : r.numbers.length = 5 <;>
        simp [calculateContestWinners, h, h2]

/-- Every winner of a contest result was scored from one of its entries. -/
theorem winners_entry_mem (entries : List Entry) (r : DrawResult)
    (platform cid : String) (w : Winner)
    (hnd : r.isNoDraw = false) (hlen : r.numbers.length = 5)
    (hw : w ∈ (calculateContestWinners entries (some r) platform cid).winners) :
    ∃ e ∈ entries, w.entry = e := by
  simp only [calculateContestWinners, hnd, hlen] at hw
  norm_num at hw
  obtain ⟨e, he, hse⟩ := List.mem_filterMap.mp hw.1
  exact ⟨e, he, scoreEntry_entry_eq r.numbers e w hse⟩

/-- C4: for every contest, a missing result, a no-draw marker, or a number
count different from 5 yields a zero-value set (hasResult=false, no winners,
tier 0) with totalEntries preserved, without any failure; and in
calculateAllWinners every winner of allWinners comes from a contest whose
looked-up result is present, not no-draw and has exactly 5 numbers — so the
entries of a contest whose result has only 4 numbers never reach allWinners. -/
theorem calculateWinners_malformed_resilience :
    (∀ (entries : List Entry) (result : Option DrawResult) (platform cid : String),
      (result = none ∨ ∃ r, result = some r ∧ (r.isNoDraw = true ∨ r.numbers.length ≠ 5)) →
      (calculateContestWinners entries result platform cid).hasResult = false ∧
      (calculateContestWinners entries result platform cid).winners = [] ∧
      (calculateContestWinners entries result platform cid).winningTier = 0 ∧
      (calculateContestWinners entries result platform cid).prizePerWinner = 0 ∧
      (calculateContestWinners entries result platform cid).totalEntries = entries.length) ∧
    (∀ (entries : List Entry) (results : List DrawResult) (platform : String) (w : Winner),
      w ∈ (calculateAllWinners entries results platform).allWinners →
      ∃ rr, resultsLookup results (jsOr w.entry.contest "Unknown") = some rr ∧
        rr.isNoDraw = false ∧ rr.numbers.length = 5) := by
  constructor
  · intro entries result platform cid h
    rcases h with h | ⟨r, hr, h⟩
    · subst h; simp [calculateContestWinners]
    · subst hr
      rcases h with h | h <;> simp [calculateContestWinners, h]
  · intro entries results platform w hw
    simp only [calculateAllWinners] at hw
    revert w
    refine foldl_inv
      (P := fun (acc : List ContestWinners × List Winner × WinnersStats) =>
        ∀ w ∈ acc.2.1,
          ∃ rr, resultsLookup results (jsOr w.entry.contest "Unknown") = some rr ∧
            rr.isNoDraw = false ∧ rr.numbers.length = 5)
      _ _ _ (by simp) ?_
    intro acc c _ hacc w hw
    unfold contestStep at hw
    by_cases hres : (calculateContestWinners
        (groupEntriesByContest (filterByPlatform entries platform) c)
        (resultsLookup results c)
        (if platform = "ALL" then "DEFAULT" else platform) c).hasResult = true
    · rw [if_pos hres] at hw
      rcases List.mem_append.mp hw with hold | hnew
      · exact hacc w hold
      · obtain ⟨rr, hrr, hrnd, hrlen⟩ := (calc_hasResult_iff _ _ _ _).mp hres
        rw [hrr] at hnew
        obtain ⟨e, he, hee⟩ := winners_entry_mem _ rr _ _ w hrnd hrlen hnew
        have hc : jsOr e.contest "Unknown" = c := by
          have hb := (List.mem_filter.mp he).2
          exact eq_of_beq hb
        rw [hee, hc]
        exact ⟨rr, hrr, hrnd, hrlen⟩
    · rw [if_neg hres] at hw
      exact hacc w hw

/-- C4 witness: the zero-value branch at a concrete 4-number result, and the
allWinners property at the concrete winner of contest 10. -/
theorem calculateWinners_malformed_resilience_witness :
    ((calculateContestWinners tierScenarioEntries (some result7Malformed) "POPN1" "").hasResult
        = false ∧
      (calculateContestWinners tierScenarioEntries (some result7Malformed) "POPN1" "").winners
        = [] ∧
      (calculateContestWinners tierScenarioEntries (some result7Malformed) "POPN1" "").winningTier
        = 0 ∧
      (calculateContestWinners tierScenarioEntries (some result7Malformed) "POPN1" "").prizePerWinner
        = 0 ∧
      (calculateContestWinners tierScenarioEntries (some result7Malformed) "POPN1" "").totalEntries
        = tierScenarioEntries.length) ∧
    (∀ w ∈ (calculateAllWinners tierScenarioEntries [result7] "ALL").allWinners,
      ∃ rr, resultsLookup [result7] (jsOr w.entry.contest "Unknown") = some rr ∧
        rr.isNoDraw = false ∧ rr.numbers.length = 5) :=
  ⟨calculateWinners_malformed_resilience.1 tierScenarioEntries (some result7Malformed)
      "POPN1" "" (Or.inr ⟨result7Malformed, rfl, Or.inr (by decide)⟩),
    fun w hw => calculateWinners_malformed_resilience.2 tierScenarioEntries [result7] "ALL" w hw⟩

/-! ## C9: validateAllTickets invariants -/

/-- Flattening the consecutive batches gives back the list. -/
theorem chunksOfAux_flatten {α : Type _} (b : Nat) (hb : 1 ≤ b) :
    ∀ (fuel : Nat) (l : List α), l.length ≤ fuel → (chunksOfAux b fuel l).flatten = l := by
  intro fuel
  induction fuel with
  | zero =>
      intro l hl
      have : l = [] := List.eq_nil_of_length_eq_zero (Nat.le_antisymm hl (Nat.zero_le _))
      subst this
      rfl
  | succ n ih =>
      intro l hl
      cases l with
      | nil => rfl
      | cons a t =>
          simp only [chunksOfAux, List.flatten]
          rw [ih ((a :: t).drop b) ?hlen]
          · exact List.take_append_drop b (a :: t)
          case hlen =>
            rw [List.length_drop]
            simp only [List.length_cons] at hl ⊢
            omega

/-- The batched loop visits exactly the input list. -/
theorem foldl_chunksOf {α β : Type _} (b : Nat) (hb : 1 ≤ b) (f : β → α → β)
    (l : List α) (init : β) :
    (chunksOf b l).foldl (fun acc batch => batch.foldl f acc) init = l.foldl f init := by
  conv_rhs => rw [← chunksOfAux_flatten b hb l.length l le_rfl]
  rw [List.foldl_flatten]
  rfl

/-- validateTicket reports the ticket it was given. -/
theorem validateTicket_ticket_eq (e : Entry) (rbg : String → List Recharge)
    (tbg : String → List Entry) : (validateTicket e rbg tbg).ticket = e := by
  unfold validateTicket validateTicketWith
  by_cases h1 : jsToUpper e.status ∈ ["VALID", "VALIDADO", "VALIDATED"]
  · simp [h1]
  · by_cases h2 : jsToUpper e.status ∈ ["INVALID", "INVÃLIDO"]
    · simp [h1, h2]
    · by_cases h3 : e.gameId = ""
      · simp [h1, h2, h3]
      · by_cases h4 : rbg e.gameId = []
        · simp [h1, h2, h3, h4]
        · cases hm : findMatchingRecharge e (rbg e.gameId) (tbg e.gameId) <;>
            simp [h1, h2, h3, h4, hm]

/-- One statistics update counts exactly one ticket into one of the three
status counters and never touches total. -/
theorem updateStats_sum (stats : ValidationStats) (v : ValidationResult) :
    (updateStats stats v).valid + (updateStats stats v).invalid +
        (updateStats stats v).unknown =
      stats.valid + stats.invalid + stats.unknown + 1 ∧
    (updateStats stats v).total = stats.total := by
  unfold updateStats
  cases v.status <;> by_cases h : v.isCutoff <;> simp [h] <;> omega

/-- The per-entry validation fold appends one outcome per entry in order and
counts each entry exactly once. -/
theorem validateFold_spec (rbg : String → List Recharge) (tbg : String → List Entry) :
    ∀ (l : List Entry) (acc : List ValidationResult × ValidationStats),
      (l.foldl (validateStep rbg tbg) acc).1 =
        acc.1 ++ l.map (fun e => validateTicket e rbg tbg) ∧
      (l.foldl (validateStep rbg tbg) acc).2.valid +
          (l.foldl (validateStep rbg tbg) acc).2.invalid +
          (l.foldl (validateStep rbg tbg) acc).2.unknown =
        acc.2.valid + acc.2.invalid + acc.2.unknown + l.length ∧
      (l.foldl (validateStep rbg tbg) acc).2.total = acc.2.total := by
  intro l
  induction l with
  | nil => intro acc; simp
  | cons e t ih =>
      intro acc
      have hstep := updateStats_sum acc.2 (validateTicket e rbg tbg)
      have h := ih (validateStep rbg tbg acc e)
      simp only [List.foldl_cons] at *
      refine ⟨?_, ?_, ?_⟩
      · rw [h.1]
        simp [validateStep]
      · rw [h.2.1]
        simp only [validateStep]
        rw [hstep.1]
        simp
        omega
      · rw [h.2.2]
        simp only [validateStep]
        rw [hstep.2]

/-- C9: for every batch size (the source uses 50) and all inputs,
validateAllTickets returns exactly one outcome per entry, in input order
(the i-th outcome is the validation of the i-th entry, so the outcome list
projects back to the input list), its stats satisfy
valid + invalid + unknown = total = number of entries, and the batched
execution computes the same value as the source's batch size — batching is
only a scheduling concession. -/
theorem validateAllTickets_invariants (b : Nat) (entries : List Entry)
    (recharges : List Recharge) (hb : 1 ≤ b) :
    (validateAllTicketsBatched b entries recharges).results =
      entries.map (fun e => validateTicket e (groupRechargesByGameId recharges)
        (groupTicketsByGameId entries)) ∧
    (validateAllTicketsBatched b entries recharges).results.map (fun v => v.ticket) =
      entries ∧
    (validateAllTicketsBatched b entries recharges).stats.total = entries.length ∧
    (validateAllTicketsBatched b entries recharges).stats.valid +
        (validateAllTicketsBatched b entries recharges).stats.invalid +
        (validateAllTicketsBatched b entries recharges).stats.unknown =
      entries.length ∧
    validateAllTicketsBatched b entries recharges = validateAllTickets entries recharges := by
  have hb50 : (1 : Nat) ≤ 50 := by norm_num
  simp only [validateAllTickets, validateAllTicketsBatched]
  rw [foldl_chunksOf b hb, foldl_chunksOf 50 hb50]
  have hspec := validateFold_spec (groupRechargesByGameId recharges)
    (groupTicketsByGameId entries) entries
    ([], { total := entries.length, valid := 0, invalid := 0, unknown := 0, cutoff := 0 })
  refine ⟨?_, ?_, ?_, ?_, rfl⟩
  · simpa using hspec.1
  · have h1 := hspec.1
    simp only [List.nil_append] at h1
    simp only [h1, List.map_map]
    have : ((fun v => ValidationResult.ticket v) ∘
        fun e => validateTicket e (groupRechargesByGameId recharges)
          (groupTicketsByGameId entries)) = id := by
      funext e
      exact validateTicket_ticket_eq e _ _
    rw [this, List.map_id]
  · simpa using hspec.2.2
  · have := hspec.2.1
    simpa using this

/-- C9 witness: the invariants at batch size 1 on a two-ticket snapshot. -/
theorem validateAllTickets_invariants_witness :
    (validateAllTicketsBatched 1 [ticketT1, ticketT2] [morningRecharge]).results =
      [ticketT1, ticketT2].map (fun e => validateTicket e
        (groupRechargesByGameId [morningRecharge])
        (groupTicketsByGameId [ticketT1, ticketT2])) ∧
    (validateAllTicketsBatched 1 [ticketT1, ticketT2] [morningRecharge]).results.map
        (fun v => v.ticket) = [ticketT1, ticketT2] ∧
    (validateAllTicketsBatched 1 [ticketT1, ticketT2] [morningRecharge]).stats.total = 2 ∧
    (validateAllTicketsBatched 1 [ticketT1, ticketT2] [morningRecharge]).stats.valid +
        (validateAllTicketsBatched 1 [ticketT1, ticketT2] [morningRecharge]).stats.invalid +
        (validateAllTicketsBatched 1 [ticketT1, ticketT2] [morningRecharge]).stats.unknown = 2 ∧
    validateAllTicketsBatched 1 [ticketT1, ticketT2] [morningRecharge] =
      validateAllTickets [ticketT1, ticketT2] [morningRecharge] :=
  validateAllTickets_invariants 1 [ticketT1, ticketT2] [morningRecharge] (by norm_num)

/-! ## C8: postcondition of the recharge matcher -/

/-- Whatever the candidate loop returns was one of the candidates, and its
eligible draw date renders to exactly the ticket's normalized draw date. -/
theorem findRechargeLoop_post (ticket : Entry) (ticketTime : Nat)
    (allTickets : List Entry) :
    ∀ (l : List Recharge) (r : Recharge),
      findRechargeLoop ticket ticketTime allTickets l = some r →
      r ∈ l ∧ ∃ w, getEligibleDrawDate r.rechargeTime = some w ∧
        normalizeTicketDrawStr ticket.drawDate = getBrazilDateString w := by
  intro l
  induction l with
  | nil => intro r h; simp [findRechargeLoop] at h
  | cons c rest ih =>
      intro r h
      unfold findRechargeLoop at h
      cases hw : getEligibleDrawDate c.rechargeTime with
      | none =>
          simp only [hw] at h
          obtain ⟨hm, hrest⟩ := ih r h
          exact ⟨List.mem_cons_of_mem _ hm, hrest⟩
      | some w =>
          simp only [hw] at h
          by_cases hds : normalizeTicketDrawStr ticket.drawDate ≠ getBrazilDateString w
          · rw [if_pos hds] at h
            obtain ⟨hm, hrest⟩ := ih r h
            exact ⟨List.mem_cons_of_mem _ hm, hrest⟩
          · rw [if_neg hds] at h
            have heq : normalizeTicketDrawStr ticket.drawDate = getBrazilDateString w :=
              not_ne_iff.mp hds
            split at h
            · cases h
              exact ⟨List.mem_cons_self _ _, w, hw, heq⟩
            · split at h
              · obtain ⟨hm, hrest⟩ := ih r h
                exact ⟨List.mem_cons_of_mem _ hm, hrest⟩
              · cases h
                exact ⟨List.mem_cons_self _ _, w, hw, heq⟩

/-- C8: whenever findMatchingRecharge returns a recharge, the ticket's
timestamp parsed, the recharge's timestamp is strictly earlier than the
ticket's registration time, and the recharge's eligible draw date, rendered
in canonical YYYY-MM-DD form, equals the ticket's draw date after
normalization from either DD/MM/YYYY or YYYY-MM-DD form. -/
theorem findMatchingRecharge_post (ticket : Entry) (recharges : List Recharge)
    (allTickets : List Entry) (r : Recharge)
    (h : findMatchingRecharge ticket recharges allTickets = some r) :
    ∃ td, ticket.parsedDate = some td ∧
      ∃ rt, r.rechargeTime = some rt ∧ rt.epochMin < td.epochMin ∧
        ∃ w, getEligibleDrawDate (some rt) = some w ∧
          normalizeTicketDrawStr ticket.drawDate = getBrazilDateString w := by
  unfold findMatchingRecharge at h
  cases hpd : ticket.parsedDate with
  | none => rw [hpd] at h; exact absurd h (by simp)
  | some td =>
      simp only [hpd] at h
      by_cases hrs : recharges = []
      · rw [if_pos hrs] at h; simp at h
      · rw [if_neg hrs] at h
        split at h
        · simp at h
        · obtain ⟨hmem, w, hw, hsd⟩ :=
            findRechargeLoop_post ticket td.epochMin allTickets _ r h
          rw [List.mem_insertionSort] at hmem
          have hf := (List.mem_filter.mp hmem).2
          cases hrt : r.rechargeTime with
          | none => rw [hrt] at hf; simp at hf
          | some rt =>
              rw [hrt] at hf
              simp only [decide_eq_true_eq] at hf
              rw [hrt] at hw
              exact ⟨td, rfl, rt, rfl, hf, w, hw, hsd⟩

/-- C8 witness: the postcondition at a concrete matched scenario (recharge at
09:00 funds the 10:00 ticket of the same day's draw). -/
theorem findMatchingRecharge_post_witness :
    ∃ td, ticketT1.parsedDate = some td ∧
      ∃ rt, morningRecharge.rechargeTime = some rt ∧ rt.epochMin < td.epochMin ∧
        ∃ w, getEligibleDrawDate (some rt) = some w ∧
          normalizeTicketDrawStr ticketT1.drawDate = getBrazilDateString w :=
  findMatchingRecharge_post ticketT1 [morningRecharge] [ticketT1, ticketT2]
    morningRecharge (by decide)

/-! ## C3: recharge exclusivity within one draw window -/

/-- C3: with one recharge at T0 and exactly two tickets of the same owner
mapping to the same eligible draw window, registered at T1 and T2 with
T0 < T1 < T2 and no other recharge, the earlier ticket is VALID with that
recharge matched and the later ticket is INVALID — the two tickets never
both claim the recharge. -/
theorem rechargeExclusivity
    (g : String) (r : Recharge) (t1 t2 : Entry) (d0 d1 d2 : DateTime) (w : Date)
    (rbg : String → List Recharge) (tbg : String → List Entry)
    (hr : r.rechargeTime = some d0)
    (h1 : t1.parsedDate = some d1)
    (h2 : t2.parsedDate = some d2)
    (h01 : d0.epochMin < d1.epochMin)
    (h12 : d1.epochMin < d2.epochMin)
    (hw0 : getEligibleDrawDate (some d0) = some w)
    (hw1 : getEligibleDrawDate (some d1) = some w)
    (hw2 : getEligibleDrawDate (some d2) = some w)
    (hd1 : normalizeTicketDrawStr t1.drawDate = getBrazilDateString w)
    (hd2 : normalizeTicketDrawStr t2.drawDate = getBrazilDateString w)
    (htn : t1.ticketNumber ≠ t2.ticketNumber)
    (hs1 : jsToUpper t1.status ∉ ["VALID", "VALIDADO", "VALIDATED"])
    (hs1' : jsToUpper t1.status ∉ ["INVALID", "INVÃLIDO"])
    (hs2 : jsToUpper t2.status ∉ ["VALID", "VALIDADO", "VALIDATED"])
    (hs2' : jsToUpper t2.status ∉ ["INVALID", "INVÃLIDO"])
    (hg : g ≠ "") (hg1 : t1.gameId = g) (hg2 : t2.gameId = g)
    (hrbg : rbg g = [r]) (htbg : tbg g = [t1, t2]) :
    (validateTicket t1 rbg tbg).status = VStatus.VALID ∧
    (validateTicket t1 rbg tbg).matchedRecharge = some r ∧
    (validateTicket t2 rbg tbg).status = VStatus.INVALID := by
  have htn' : t2.ticketNumber ≠ t1.ticketNumber := Ne.symm htn
  have hn21 : ¬(d2.epochMin < d1.epochMin) := by omega
  have hn11 : ¬(d1.epochMin < d1.epochMin) := by omega
  have h02 : d0.epochMin < d2.epochMin := by omega
  -- the matcher grants the recharge to the earlier ticket
  have hm1 : findMatchingRecharge t1 [r] [t1, t2] = some r := by
    unfold findMatchingRecharge
    simp only [h1]
    rw [if_neg (by simp)]
    have hel : ([r].filter fun rr =>
        match rr.rechargeTime with
        | none => false
        | some rt => decide (rt.epochMin < d1.epochMin)) = [r] := by
      simp [hr, h01]
    rw [hel]
    rw [if_neg (by simp)]
    have hsort : ([r].insertionSort fun a b => rechargeMin b ≤ rechargeMin a) = [r] := by
      simp [List.insertionSort]
    rw [hsort]
    unfold findRechargeLoop
    rw [← hr] at hw0
    simp only [hw0, hd1, ne_eq, not_true_eq_false, if_false, ite_not]
    have hprior : ([t1, t2].filter fun t =>
        t.ticketNumber ≠ t1.ticketNumber &&
        match t.parsedDate with
        | none => false
        | some pd => decide (pd.epochMin < d1.epochMin) && decide (rechargeMin r < pd.epochMin)) =
        [] := by
      simp [h1, h2, hn11, hn21]
    rw [hprior]
    simp
  -- the matcher rejects the later ticket: the recharge is already claimed
  have hm2 : findMatchingRecharge t2 [r] [t1, t2] = none := by
    unfold findMatchingRecharge
    simp only [h2]
    rw [if_neg (by simp)]
    have hel : ([r].filter fun rr =>
        match rr.rechargeTime with
        | none => false
        | some rt => decide (rt.epochMin < d2.epochMin)) = [r] := by
      simp [hr, h02]
    rw [hel]
    rw [if_neg (by simp)]
    have hsort : ([r].insertionSort fun a b => rechargeMin b ≤ rechargeMin a) = [r] := by
      simp [List.insertionSort]
    rw [hsort]
    unfold findRechargeLoop
    rw [← hr] at hw0
    simp only [hw0, hd2, ne_eq, not_true_eq_false, if_false, ite_not]
    have hrm : rechargeMin r = d0.epochMin := by simp [rechargeMin, hr]
    have hprior : ([t1, t2].filter fun t =>
        t.ticketNumber ≠ t2.ticketNumber &&
        match t.parsedDate with
        | none => false
        | some pd => decide (pd.epochMin < d2.epochMin) && decide (rechargeMin r < pd.epochMin)) =
        [t1] := by
      simp [h1, h2, htn, h12, hrm, h01]
    rw [hprior]
    rw [if_neg (by simp)]
    have hclaimed : rechargeClaimedBy (getBrazilDateString w) [t1] = true := by
      simp [rechargeClaimedBy, h1, hw1]
    rw [hclaimed]
    simp [findRechargeLoop]
  -- wrap both through validateTicket
  refine ⟨?_, ?_, ?_⟩
  · unfold validateTicket validateTicketWith
    rw [if_neg hs1, if_neg hs1', hg1, if_neg hg, hrbg, htbg]
    rw [if_neg (by simp), hm1]
  · unfold validateTicket validateTicketWith
    rw [if_neg hs1, if_neg hs1', hg1, if_neg hg, hrbg, htbg]
    rw [if_neg (by simp), hm1]
  · unfold validateTicket validateTicketWith
    rw [if_neg hs2, if_neg hs2', hg2, if_neg hg, hrbg, htbg]
    rw [if_neg (by simp), hm2]

/-- C3 witness: the theorem at the concrete 09:00 recharge and 10:00/11:00
tickets of owner A, all in the 2024-05-06 draw window. -/
theorem rechargeExclusivity_witness :
    (validateTicket ticketT1 (fun _ => [morningRecharge])
        (fun _ => [ticketT1, ticketT2])).status = VStatus.VALID ∧
    (validateTicket ticketT1 (fun _ => [morningRecharge])
        (fun _ => [ticketT1, ticketT2])).matchedRecharge = some morningRecharge ∧
    (validateTicket ticketT2 (fun _ => [morningRecharge])
        (fun _ => [ticketT1, ticketT2])).status = VStatus.INVALID :=
  rechargeExclusivity "A" morningRecharge ticketT1 ticketT2
    ⟨⟨2024, 5, 6⟩, 9, 0⟩ ⟨⟨2024, 5, 6⟩, 10, 0⟩ ⟨⟨2024, 5, 6⟩, 11, 0⟩ ⟨2024, 5, 6⟩
    (fun _ => [morningRecharge]) (fun _ => [ticketT1, ticketT2])
    (by decide) (by decide) (by decide) (by decide) (by decide) (by decide)
    (by decide) (by decide) (by decide) (by decide) (by decide) (by decide)
    (by decide) (by decide) (by decide) (by decide) (by decide) (by decide)
    (by decide) (by decide)

/-! ## C7: determinism and idempotence of calculateAllWinners -/

/-- C7: calculateAllWinners is a pure function of (entries, results,
platform) — the model takes no clock and the translated code reads none —
and running it twice on an unchanged snapshot through the DataFetcher cache
protocol yields identical output, whatever the initial cache state: the
second run returns exactly the first run's value (served from the cache it
populated, or from an already-valid cache). -/
theorem calculateAllWinnersCached_idempotent (cache : WinnersCache)
    (entries : List Entry) (results : List DrawResult) (platform : String) :
    (calculateAllWinnersCached
        (calculateAllWinnersCached cache entries results platform).2
        entries results platform).1 =
      (calculateAllWinnersCached cache entries results platform).1 := by
  have hplat : (calculateAllWinners entries results platform).platform = platform := rfl
  unfold calculateAllWinnersCached
  cases hc : cache.data with
  | none => simp [isWinnersCacheValid, hplat]
  | some cached =>
      by_cases hvalid : (cache.entriesHash = simpleHashEntries entries ∧
          cache.resultsHash = simpleHashResults results) ∧ cached.platform = platform
      · simp [hc, isWinnersCacheValid, hvalid]
      · simp [hc, isWinnersCacheValid, hvalid, hplat]

/-! ## C2: tier resolution and the single-tier prize split -/

/-- When the cascade resolves a non-zero tier, that tier's valid bucket is
non-empty. -/
theorem winningTier_bucket_nonempty (entries : List Entry) (wn : List Nat)
    (h : specWinningTier entries wn ≠ 0) :
    specValidBucket entries wn (specWinningTier entries wn) ≠ [] := by
  unfold specWinningTier at *
  by_cases h5 : specValidBucket entries wn 5 ≠ []
  · simpa [h5] using h5
  · by_cases h4 : specValidBucket entries wn 4 ≠ []
    · simpa [h5, h4] using h4
    · by_cases h3 : specValidBucket entries wn 3 ≠ []
      · simpa [h5, h4, h3] using h3
      · simp [h5, h4, h3] at h

/-- With a well-formed result, the resolved fields of calculateContestWinners
are the specification-side cascade over the scored buckets. -/
theorem calc_fields_wellformed (entries : List Entry) (r : DrawResult)
    (platform cid : String) (hnd : r.isNoDraw = false) (hlen : r.numbers.length = 5) :
    (calculateContestWinners entries (some r) platform cid).winningTier =
      specWinningTier entries r.numbers ∧
    (calculateContestWinners entries (some r) platform cid).prizePool =
      getPrizePool platform ∧
    (calculateContestWinners entries (some r) platform cid).byTier 4 =
      byTierBucket entries r.numbers 4 ∧
    (calculateContestWinners entries (some r) platform cid).winners =
      ((scoredEntries entries r.numbers).filter fun w =>
          w.isValidEntry && decide (w.matchCount ≥ MIN_MATCHES_TO_WIN)).insertionSort
        (fun a b => b.matchCount ≤ a.matchCount) ∧
    (calculateContestWinners entries (some r) platform cid).prizePerWinner =
      (if (specWinningTier entries r.numbers > 0 &&
            specValidBucket entries r.numbers (specWinningTier entries r.numbers) ≠ []) = true
        then getPrizePool platform /
          (specValidBucket entries r.numbers (specWinningTier entries r.numbers)).length
        else 0) ∧
    (calculateContestWinners entries (some r) platform cid).totalPrizeAwarded =
      (if (specWinningTier entries r.numbers > 0 &&
            specValidBucket entries r.numbers (specWinningTier entries r.numbers) ≠ []) = true
        then getPrizePool platform else 0) := by
  simp only [calculateContestWinners, hnd, hlen]
  rw [if_neg (by simp)]
  exact ⟨rfl, rfl, rfl, rfl, rfl, rfl⟩

/-- C2 counterexample: in the 2-tickets-matching-5, 3-tickets-matching-4
scenario the winning tier is 5 and the prize is split by 2, but the three
4-match tickets do appear in allWinners (the winners list keeps every valid
entry with at least 3 matches), contradicting "only in byTier diagnostics,
not in allWinners". -/
theorem tierExclusivity_cex :
    (calculateContestWinners tierScenarioEntries (some result7) "DEFAULT" "7").winningTier
      = 5 ∧
    (calculateContestWinners tierScenarioEntries (some result7) "DEFAULT" "7").prizePerWinner
      = (calculateContestWinners tierScenarioEntries (some result7) "DEFAULT" "7").prizePool
        / 2 ∧
    ((calculateAllWinners tierScenarioEntries [result7] "ALL").allWinners.filter
      (fun w => w.matchCount == 4)).length = 3 := by
  refine ⟨by decide, ?_, by decide⟩
  obtain ⟨ht, hp, _, _, hpw, _⟩ :=
    calc_fields_wellformed tierScenarioEntries result7 "DEFAULT" "7" (by decide) (by decide)
  rw [hpw, hp]
  have htier : specWinningTier tierScenarioEntries result7.numbers = 5 := by decide
  have hne : specValidBucket tierScenarioEntries result7.numbers 5 ≠ [] := by decide
  have hlen5 : (specValidBucket tierScenarioEntries result7.numbers 5).length = 2 := by decide
  rw [htier]
  rw [if_pos (by simp [hne]), hlen5]
  norm_num

/-- C2 (amended): for every contest with a well-formed 5-number result, the
winning tier is the highest match count in [3, 5] whose bucket has a valid
entry (0 if none); when a tier wins, prize-per-winner is the prize pool
divided by the number of valid entries in that tier and the entire pool goes
to that single tier.  In the scenario with exactly 2 valid 5-match entries
and 3 valid 4-match entries the tier is 5 and prize-per-winner is
prizePool / 2, but the valid 4-match entries appear both in the byTier
diagnostics and in the contest winners list that feeds allWinners (with no
share of the pool). -/
theorem tierResolution :
    (∀ (entries : List Entry) (r : DrawResult) (platform cid : String),
      r.isNoDraw = false → r.numbers.length = 5 →
      (calculateContestWinners entries (some r) platform cid).winningTier =
        specWinningTier entries r.numbers ∧
      ((calculateContestWinners entries (some r) platform cid).winningTier ≠ 0 →
        (calculateContestWinners entries (some r) platform cid).prizePerWinner =
          (calculateContestWinners entries (some r) platform cid).prizePool /
            (specValidBucket entries r.numbers
              ((calculateContestWinners entries (some r) platform cid).winningTier)).length ∧
        (calculateContestWinners entries (some r) platform cid).totalPrizeAwarded =
          (calculateContestWinners entries (some r) platform cid).prizePool)) ∧
    (∀ (entries : List Entry) (r : DrawResult) (platform cid : String),
      r.isNoDraw = false → r.numbers.length = 5 →
      (specValidBucket entries r.numbers 5).length = 2 →
      (specValidBucket entries r.numbers 4).length = 3 →
      (calculateContestWinners entries (some r) platform cid).winningTier = 5 ∧
      (calculateContestWinners entries (some r) platform cid).prizePerWinner =
        (calculateContestWinners entries (some r) platform cid).prizePool / 2 ∧
      (∀ w ∈ specValidBucket entries r.numbers 4,
        w ∈ (calculateContestWinners entries (some r) platform cid).byTier 4 ∧
        w ∈ (calculateContestWinners entries (some r) platform cid).winners)) := by
  constructor
  · intro entries r platform cid hnd hlen
    obtain ⟨ht, hp, _, _, hpw, hta⟩ := calc_fields_wellformed entries r platform cid hnd hlen
    refine ⟨ht, ?_⟩
    intro hne
    rw [ht] at hne
    have hpos : specWinningTier entries r.numbers > 0 := Nat.pos_of_ne_zero hne
    have hbne := winningTier_bucket_nonempty entries r.numbers hne
    rw [hpw, hta, hp, ht]
    simp [hpos, hbne]
  · intro entries r platform cid hnd hlen h5 h4
    obtain ⟨ht, hp, hb4, hw, hpw, _⟩ := calc_fields_wellformed entries r platform cid hnd hlen
    have h5ne : specValidBucket entries r.numbers 5 ≠ [] := by
      intro hnil; rw [hnil] at h5; simp at h5
    have htier : specWinningTier entries r.numbers = 5 := by
      unfold specWinningTier
      simp [h5ne]
    refine ⟨by rw [ht, htier], ?_, ?_⟩
    · rw [hpw, hp, htier, h5]
      have : specValidBucket entries r.numbers 5 ≠ [] := h5ne
      simp [htier, h5ne, h5]
    · intro w hwmem
      have hmem4 : w ∈ byTierBucket entries r.numbers 4 :=
        (List.mem_filter.mp hwmem).1
      have hvalid : w.isValidEntry = true := (List.mem_filter.mp hwmem).2
      have hscored : w ∈ scoredEntries entries r.numbers :=
        (List.mem_filter.mp hmem4).1
      have hcount : w.matchCount = 4 := by
        have hb := (List.mem_filter.mp hmem4).2
        simpa using hb
      constructor
      · rw [hb4]; exact hmem4
      · rw [hw, List.mem_insertionSort]
        refine List.mem_filter.mpr ⟨hscored, ?_⟩
        simp [hvalid, hcount, MIN_MATCHES_TO_WIN]

/-- C2 witness: the amended theorem's two parts at the concrete scenario of
contest 7. -/
theorem tierResolution_witness :
    ((calculateContestWinners tierScenarioEntries (some result7) "DEFAULT" "7").winningTier =
      specWinningTier tierScenarioEntries result7.numbers) ∧
    ((calculateContestWinners tierScenarioEntries (some result7) "DEFAULT" "7").winningTier = 5 ∧
      (calculateContestWinners tierScenarioEntries (some result7) "DEFAULT" "7").prizePerWinner =
        (calculateContestWinners tierScenarioEntries (some result7) "DEFAULT" "7").prizePool / 2 ∧
      (∀ w ∈ specValidBucket tierScenarioEntries result7.numbers 4,
        w ∈ (calculateContestWinners tierScenarioEntries (some result7) "DEFAULT" "7").byTier 4 ∧
        w ∈ (calculateContestWinners tierScenarioEntries (some result7) "DEFAULT" "7").winners)) :=
  ⟨(tierResolution.1 tierScenarioEntries result7 "DEFAULT" "7" (by decide) (by decide)).1,
    tierResolution.2 tierScenarioEntries result7 "DEFAULT" "7" (by decide) (by decide)
      (by decide) (by decide)⟩

/-! ## C5: the 14-day scan horizon never binds -/

/-- Every month has at least one day. -/
theorem daysInMonth_pos (y m : Nat) : 1 ≤ daysInMonth y m := by
  unfold daysInMonth
  split
  · split <;> omega
  · split <;> omega

/-- The calendar successor of a valid date is valid. -/
theorem nextDay_valid (d : Date) (h : ValidDate d) : ValidDate (nextDay d) := by
  unfold ValidDate at h
  obtain ⟨hy, hm1, hm2, hd1, hd2⟩ := h
  unfold nextDay
  by_cases h1 : d.day < daysInMonth d.year d.month
  · rw [if_pos h1]
    unfold ValidDate
    dsimp only
    exact ⟨hy, hm1, hm2, by omega, by omega⟩
  · rw [if_neg h1]
    by_cases h2 : d.month < 12
    · rw [if_pos h2]
      unfold ValidDate
      dsimp only
      exact ⟨hy, by omega, by omega, le_refl 1, daysInMonth_pos _ _⟩
    · rw [if_neg h2]
      unfold ValidDate
      dsimp only
      exact ⟨by omega, by omega, by omega, le_refl 1, daysInMonth_pos _ _⟩

/-- One unfolding step of the month prefix sums. -/
theorem daysBeforeMonth_succ (y k : Nat) :
    daysBeforeMonth y (k + 2) = daysBeforeMonth y (k + 1) + daysInMonth y (k + 1) := rfl

/-- Yearly day-count step, matching the leap rule. -/
theorem daysBeforeYear_succ (y : Nat) (hy : 1 ≤ y) :
    daysBeforeYear (y + 1) = daysBeforeYear y + (if isLeap y then 366 else 365) := by
  unfold daysBeforeYear isLeap
  by_cases h4 : y % 4 = 0 <;> by_cases h100 : y % 100 = 0 <;> by_cases h400 : y % 400 = 0 <;>
    simp [h4, h100, h400] <;> omega

/-- The month prefix sums over a whole year add up to the year length. -/
theorem daysBeforeMonth_13 (y : Nat) :
    daysBeforeMonth y 13 = if isLeap y then 366 else 365 := by
  by_cases h : isLeap y <;>
    simp [daysBeforeMonth, daysInMonth, h]

/-- The rata-die number of the successor of a valid date is one more. -/
theorem rataDie_nextDay (d : Date) (h : ValidDate d) : rataDie (nextDay d) = rataDie d + 1 := by
  have hvd := h
  unfold ValidDate at hvd
  obtain ⟨hy, hm1, hm2, hd1, hd2⟩ := hvd
  unfold nextDay rataDie
  by_cases h1 : d.day < daysInMonth d.year d.month
  · rw [if_pos h1]
    dsimp only
    omega
  · rw [if_neg h1]
    have hde : d.day = daysInMonth d.year d.month := by omega
    by_cases h2 : d.month < 12
    · rw [if_pos h2]
      dsimp only
      have hstep : daysBeforeMonth d.year (d.month + 1) =
          daysBeforeMonth d.year d.month + daysInMonth d.year d.month := by
        obtain ⟨k, hk⟩ : ∃ k, d.month = k + 1 := ⟨d.month - 1, by omega⟩
        rw [hk]
        exact daysBeforeMonth_succ d.year k
      omega
    · rw [if_neg h2]
      dsimp only
      have hm12 : d.month = 12 := by omega
      have h13 : daysBeforeMonth d.year 13 =
          daysBeforeMonth d.year 12 + daysInMonth d.year 12 := daysBeforeMonth_succ d.year 11
      have hdim : daysInMonth d.year 12 = 31 := by simp [daysInMonth]
      have hone : daysBeforeMonth (d.year + 1) 1 = 0 := rfl
      have hkey : daysBeforeYear (d.year + 1) =
          daysBeforeYear d.year + daysBeforeMonth d.year 13 := by
        rw [daysBeforeYear_succ d.year hy, daysBeforeMonth_13]
      rw [hm12] at hde ⊢
      omega

/-- The day of week advances by one (mod 7) on the successor of a valid
date, in the JS `getDay` encoding. -/
theorem dayOfWeek_nextDay (d : Date) (h : ValidDate d) :
    dayOfWeek (nextDay d) = (dayOfWeek d + 1) % 7 := by
  unfold dayOfWeek
  rw [rataDie_nextDay d h]
  omega

/-- Characterization of the no-draw rule. -/
theorem isNoDrawDay_iff (d : Date) :
    isNoDrawDay d = true ↔
      dayOfWeek d = 0 ∨ (d.month = 12 ∧ d.day = 25) ∨ (d.month = 1 ∧ d.day = 1) := by
  unfold isNoDrawDay
  by_cases h1 : dayOfWeek d = 0
  · simp [h1]
  · rw [if_neg h1]
    by_cases h2 : d.month = 12 <;> by_cases h3 : d.day = 25 <;>
      by_cases h4 : d.month = 1 <;> by_cases h5 : d.day = 1 <;>
        simp [h1, h2, h3, h4, h5] <;> omega

/-- Successor inside a month. -/
theorem nextDay_inMonth (d : Date) (hlt : d.day < daysInMonth d.year d.month) :
    nextDay d = ⟨d.year, d.month, d.day + 1⟩ := by
  unfold nextDay
  rw [if_pos hlt]

/-- A date with a known draw-permitting day of week and no holiday fields is
a draw day. -/
theorem notNoDraw_of_facts (z : Date) (c : Nat) (hdw : dayOfWeek z = c) (hc : c ≠ 0)
    (hnh : ¬(z.month = 12 ∧ z.day = 25)) (hnj : ¬(z.month = 1 ∧ z.day = 1)) :
    isNoDrawDay z = false := by
  rw [← Bool.not_eq_true, isNoDrawDay_iff]
  rintro (h | h | h)
  · omega
  · exact hnh h
  · exact hnj h

/-- At most two consecutive days are no-draw days: after a no-draw pair the
third day always has a draw. -/
theorem noDraw_run_le_two (d : Date) (hv : ValidDate d)
    (h0 : isNoDrawDay d = true) (h1 : isNoDrawDay (nextDay d) = true) :
    isNoDrawDay (nextDay (nextDay d)) = false := by
  have hv1 : ValidDate (nextDay d) := nextDay_valid d hv
  have hw1 : dayOfWeek (nextDay d) = (dayOfWeek d + 1) % 7 := dayOfWeek_nextDay d hv
  have hw2 : dayOfWeek (nextDay (nextDay d)) = (dayOfWeek (nextDay d) + 1) % 7 :=
    dayOfWeek_nextDay _ hv1
  rw [isNoDrawDay_iff] at h0 h1
  rcases h0 with h0d | ⟨h0m, h0day⟩ | ⟨h0m, h0day⟩
  · -- d is a Sunday, so nextDay d is a Monday and must be a holiday
    have hdw1 : dayOfWeek (nextDay d) = 1 := by omega
    rcases h1 with h1d | ⟨h1m, h1day⟩ | ⟨h1m, h1day⟩
    · omega
    · -- nextDay d is Dec 25; the day after is Dec 26, a Tuesday
      have hdim : daysInMonth (nextDay d).year (nextDay d).month = 31 := by
        rw [h1m]; simp [daysInMonth]
      have e2 : nextDay (nextDay d) = ⟨(nextDay d).year, (nextDay d).month, (nextDay d).day + 1⟩ :=
        nextDay_inMonth _ (by omega)
      refine notNoDraw_of_facts _ 2 (by omega) (by omega) ?_ ?_ <;> rw [e2] <;> dsimp <;> omega
    · -- nextDay d is Jan 1; the day after is Jan 2, a Tuesday
      have hdim : daysInMonth (nextDay d).year (nextDay d).month = 31 := by
        rw [h1m]; simp [daysInMonth]
      have e2 : nextDay (nextDay d) = ⟨(nextDay d).year, (nextDay d).month, (nextDay d).day + 1⟩ :=
        nextDay_inMonth _ (by omega)
      refine notNoDraw_of_facts _ 2 (by omega) (by omega) ?_ ?_ <;> rw [e2] <;> dsimp <;> omega
  · -- d is Dec 25, so nextDay d is Dec 26 and must be a Sunday
    have hdimd : daysInMonth d.year d.month = 31 := by rw [h0m]; simp [daysInMonth]
    have e1 : nextDay d = ⟨d.year, d.month, d.day + 1⟩ := nextDay_inMonth _ (by omega)
    have h1m26 : (nextDay d).month = 12 := by rw [e1]; dsimp; omega
    have h1d26 : (nextDay d).day = 26 := by rw [e1]; dsimp; omega
    rcases h1 with h1d | ⟨h1m, h1day⟩ | ⟨h1m, h1day⟩
    · -- Dec 26 is a Sunday; Dec 27 is a Monday and no holiday
      have hdim : daysInMonth (nextDay d).year (nextDay d).month = 31 := by
        rw [h1m26]; simp [daysInMonth]
      have e2 : nextDay (nextDay d) = ⟨(nextDay d).year, (nextDay d).month, (nextDay d).day + 1⟩ :=
        nextDay_inMonth _ (by omega)
      refine notNoDraw_of_facts _ 1 (by omega) (by omega) ?_ ?_ <;> rw [e2] <;> dsimp <;> omega
    · omega
    · omega
  · -- d is Jan 1, so nextDay d is Jan 2 and must be a Sunday
    have hdimd : daysInMonth d.year d.month = 31 := by rw [h0m]; simp [daysInMonth]
    have e1 : nextDay d = ⟨d.year, d.month, d.day + 1⟩ := nextDay_inMonth _ (by omega)
    have h1m2 : (nextDay d).month = 1 := by rw [e1]; dsimp; omega
    have h1d2 : (nextDay d).day = 2 := by rw [e1]; dsimp; omega
    rcases h1 with h1d | ⟨h1m, h1day⟩ | ⟨h1m, h1day⟩
    · -- Jan 2 is a Sunday; Jan 3 is a Monday and no holiday
      have hdim : daysInMonth (nextDay d).year (nextDay d).month = 31 := by
        rw [h1m2]; simp [daysInMonth]
      have e2 : nextDay (nextDay d) = ⟨(nextDay d).year, (nextDay d).month, (nextDay d).day + 1⟩ :=
        nextDay_inMonth _ (by omega)
      refine notNoDraw_of_facts _ 1 (by omega) (by omega) ?_ ?_ <;> rw [e2] <;> dsimp <;> omega
    · omega
    · omega

/-- C5: for every valid starting date the 14-day bounded scan of
getNextValidDrawDate succeeds — the explicit error branch is unreachable —
returning the earliest draw day at or after the starting date: the first
day of the scan (at most two days in) that is not a no-draw day, every
earlier day being a no-draw day. -/
theorem getNextValidDrawDate_total (d : Date) (hv : ValidDate d) :
    ∃ k, k ≤ 2 ∧ getNextValidDrawDate d = some (iterNextDay k d) ∧
      isNoDrawDay (iterNextDay k d) = false ∧
      ∀ j, j < k → isNoDrawDay (iterNextDay j d) = true := by
  by_cases h0 : isNoDrawDay d = true
  · by_cases h1 : isNoDrawDay (nextDay d) = true
    · have h2 : isNoDrawDay (nextDay (nextDay d)) = false := noDraw_run_le_two d hv h0 h1
      refine ⟨2, by omega, ?_, ?_, ?_⟩
      · unfold getNextValidDrawDate
        simp [nextValidDrawDateAux, iterNextDay, h0, h1, h2]
      · simpa [iterNextDay] using h2
      · intro j hj
        interval_cases j
        · simpa [iterNextDay] using h0
        · simpa [iterNextDay] using h1
    · have h1' : isNoDrawDay (nextDay d) = false := by
        rwa [Bool.not_eq_true] at h1
      refine ⟨1, by omega, ?_, ?_, ?_⟩
      · unfold getNextValidDrawDate
        simp [nextValidDrawDateAux, iterNextDay, h0, h1']
      · simpa [iterNextDay] using h1'
      · intro j hj
        interval_cases j
        simpa [iterNextDay] using h0
  · have h0' : isNoDrawDay d = false := by rwa [Bool.not_eq_true] at h0
    refine ⟨0, by omega, ?_, ?_, ?_⟩
    · unfold getNextValidDrawDate
      simp [nextValidDrawDateAux, iterNextDay, h0']
    · simpa [iterNextDay] using h0'
    · intro j hj
      omega

/-- C5 witness: the scan from Sunday 2024-05-05 returns Monday 2024-05-06
after skipping exactly the Sunday. -/
theorem getNextValidDrawDate_total_witness :
    ∃ k, k ≤ 2 ∧ getNextValidDrawDate ⟨2024, 5, 5⟩ = some (iterNextDay k ⟨2024, 5, 5⟩) ∧
      isNoDrawDay (iterNextDay k ⟨2024, 5, 5⟩) = false ∧
      ∀ j, j < k → isNoDrawDay (iterNextDay j ⟨2024, 5, 5⟩) = true :=
  getNextValidDrawDate_total ⟨2024, 5, 5⟩ (by decide)

end PopSorte
